import Mathlib

/-!
Verification of the Resource Reservation & Availability Engine
(colab_erp): a shallow embedding of the connection-pool guard
(src/agents/pool_manager.py), the transaction layer (src/db.py), the
conflict queries (src/models/availability_service.py,
src/models/room_approval_service.py, src/models/device_manager.py) and
the booking workflow (src/models/booking_service.py,
src/models/room_approval_service.py), with theorems settling the spec's
claims about them.

Conventions of the embedding:
- timestamps are integers counting minutes (UTC); a calendar date is an
  integer day index, and `d * 1440 + m` is minute `m` of day `d`;
- the Python services build `tstzrange` values from dates at fixed
  times of day (07:30/16:30 for the availability service, 00:00/23:59
  for the room-approval service, midnight for the device manager);
  those constructions are embedded one-for-one;
- SQL result ordering (`ORDER BY`) is not modelled: every claim below
  is about membership or emptiness of result sets, never order;
- primary-key joins are embedded as `List.find?` lookups (ids are
  primary keys in the schema).
-/

namespace ColabErp

/-! ### Connection guard (src/agents/pool_manager.py)

`AgentPoolManager` constants and `_check_pool_saturation`, embedded
from the source. The saturation estimate adds a fixed UI estimate of 8
to the guard's own active-connection counter and divides by the pool
maximum of 20. -/

def SATURATION_THRESHOLD : ℚ := 9 / 10

def MAX_RETRIES : Nat := 3

def ESTIMATED_UI_CONNECTIONS : Nat := 8

def MAXCONN : Nat := 20

/-- Embedding of `AgentPoolManager._check_pool_saturation`: the estimate
is `(active agent connections + 8) / 20`; it consults nothing but the
manager's own counter. -/
def checkPoolSaturation (connectionCount : Nat) : ℚ :=
  ((connectionCount + ESTIMATED_UI_CONNECTIONS : Nat) : ℚ) / (MAXCONN : ℚ)

/-- Outcome of one `pool.getconn()` call in the environment. -/
inductive GetconnOutcome
  | ok
  | poolError
deriving Repr, DecidableEq

/-- How the caller's body at the (first) `yield` ends: it returns
normally, raises `psycopg2.pool.PoolError` (which the source's retry
`except` around the `yield` CATCHES — e.g. a nested pool checkout
hitting exhaustion), or raises any other exception (which propagates
out of the `try`). -/
inductive BodyOutcome
  | ok
  | raisesPoolError
  | raisesOther
deriving Repr, DecidableEq

/-- Environment for one `get_agent_connection` call: the outcome of the
i-th `getconn` attempt, whether the `SET application_name` tagging step
of the i-th attempt succeeds, and how the caller's body ends (the body
runs only at the first `yield`; a second `yield` never re-enters it). -/
structure AcquireEnv where
  getconnOutcome : Nat → GetconnOutcome
  tagOk : Nat → Bool
  body : BodyOutcome

/-- How a `get_agent_connection` call ends. -/
inductive AcquireResult
  | completed        -- body ran and returned normally
  | bodyError        -- the body raised a non-PoolError; it propagates
  | tagError         -- `SET application_name` raised after checkout
  | poolSaturated    -- `PoolSaturationError` from the circuit breaker
  | connectionError  -- `AgentConnectionError` after `MAX_RETRIES` failures
  /-- the body raised `PoolError`, a retry checked out a SECOND handle
  and the generator reached a second `yield`: `contextmanager.__exit__`
  raises `RuntimeError` ("generator didn't stop after throw"). -/
  | reentrantYield
deriving Repr, DecidableEq

/-- Observable trace of one `get_agent_connection` call: its result,
how many `getconn` attempts ran, how many handles were checked out, how
many `putconn` calls and which counter value the caller observes when
its scope exits, and the same two after the suspended generator (if
any) is closed at garbage collection, when its `finally` finally runs. -/
structure AcquireTrace where
  result : AcquireResult
  getconnCalls : Nat
  handlesAcquired : Nat
  putconnCalls : Nat
  finalCount : Nat
  gcPutconn : Nat
  gcCount : Nat
deriving Repr, DecidableEq

/-- Embedding of the retry loop of `get_agent_connection` (the `while
retry_count < self.MAX_RETRIES` body plus the `finally` block). `fuel`
is the number of retries still allowed (`MAX_RETRIES - retry_count`),
`calls` the number of `getconn` attempts made so far, `held` whether a
handle from an earlier checkout is still in `conn` (the body raised
`PoolError`, caught by the retry `except` that encloses the `yield`),
and `acquired` the number of checkouts so far.

On a successful checkout the source tags the connection, increments
`_connection_count`, and yields. With no handle previously held the
body runs: on normal return or a non-PoolError exception the `finally`
returns the handle and sets
`_connection_count = max(0, _connection_count - 1)` (ℕ subtraction
below); on a body-raised `PoolError` the retry `except` catches it
WHILE the handle is held and the loop re-enters `getconn`. With a
handle already held, a successful re-checkout overwrites `conn` — the
first handle is leaked, never returned — and the second `yield` makes
`contextmanager.__exit__` raise `RuntimeError`: at scope exit neither
handle has been returned and the counter carries both increments; only
when the suspended generator is closed (garbage collection) does its
`finally` return the second handle and decrement once. When the tagging
step raises, the current handle is returned and the counter decremented
without the (current) increment having happened. When `getconn` itself
raises `PoolError` the loop retries (any held handle stays held); after
`MAX_RETRIES` failures the call raises `AgentConnectionError`, and the
`finally` returns the held handle if there is one. -/
def acquireLoop (count : Nat) (env : AcquireEnv) :
    Nat → Nat → Bool → Nat → AcquireTrace
  | 0, calls, held, acquired =>
    ⟨.connectionError, calls, acquired, if held then 1 else 0, count, 0, count⟩
  | _fuel + 1, calls, held, acquired =>
    match env.getconnOutcome calls with
    | .poolError => acquireLoop count env _fuel (calls + 1) held acquired
    | .ok =>
      if env.tagOk calls then
        if held then
          ⟨.reentrantYield, calls + 1, acquired + 1, 0, count + 2, 1, count + 1⟩
        else
          match env.body with
          | .ok =>
            ⟨.completed, calls + 1, acquired + 1, 1, count + 1 - 1, 0, count + 1 - 1⟩
          | .raisesOther =>
            ⟨.bodyError, calls + 1, acquired + 1, 1, count + 1 - 1, 0, count + 1 - 1⟩
          | .raisesPoolError =>
            acquireLoop count env _fuel (calls + 1) true (acquired + 1)
      else
        ⟨.tagError, calls + 1, acquired + 1, 1, if held then count else count - 1,
         0, if held then count else count - 1⟩

/-- Embedding of `AgentPoolManager.get_agent_connection`: the circuit
breaker compares the saturation estimate against the threshold BEFORE
any interaction with the underlying pool, and raises
`PoolSaturationError` when the estimate exceeds it; otherwise the retry
loop runs with no handle held. -/
def getAgentConnection (count : Nat) (env : AcquireEnv) : AcquireTrace :=
  if SATURATION_THRESHOLD < checkPoolSaturation count then
    ⟨.poolSaturated, 0, 0, 0, count, 0, count⟩
  else
    acquireLoop count env MAX_RETRIES 0 false 0

/-- Concrete environment: checkout succeeds, the tagging step fails. -/
def envTagFail : AcquireEnv := ⟨fun _ => .ok, fun _ => false, .ok⟩

/-- Concrete environment: everything succeeds. -/
def envAllOk : AcquireEnv := ⟨fun _ => .ok, fun _ => true, .ok⟩

/-- Concrete environment: the body raises `PoolError` and the retry's
re-checkout succeeds. -/
def envBodyPoolError : AcquireEnv := ⟨fun _ => .ok, fun _ => true, .raisesPoolError⟩

/-- Concrete environment: the body raises `PoolError` and every further
`getconn` attempt fails. -/
def envBodyPoolErrorExhaust : AcquireEnv :=
  ⟨fun i => if i == 0 then .ok else .poolError, fun _ => true, .raisesPoolError⟩

/-! ### Transaction layer (src/db.py)

`run_transaction` executes one write against the datastore, commits on
success, and on any exception rolls the transaction back before
translating the exception. The embedding abstracts the write as a
function from the datastore state to either a new state or a raised
database exception. -/

/-- Exceptions a write can raise inside `run_transaction`. -/
inductive DbException
  | exclusionViolation
  | undefinedColumn (msg : String)
  | otherError (msg : String)
deriving Repr, DecidableEq

/-- What `run_transaction` surfaces to its caller. -/
inductive TxResult
  | success
  /-- the distinct domain-level failure:
  `ValueError("Double Booking Prevented by Database Constraint.")` -/
  | doubleBookingPrevented
  | schemaError (msg : String)
  | genericFailure (msg : String)
deriving Repr, DecidableEq

/-- Embedding of `db.run_transaction`: on success the tentative state is
committed; on `psycopg2.errors.ExclusionViolation` the transaction is
rolled back (the state reverts to `state`) and the distinct
double-booking `ValueError` is raised; on `UndefinedColumn` a schema
error is raised after rollback; any other exception is rolled back and
re-raised generically. -/
def run_transaction {σ : Type} (state : σ) (query : σ → σ ⊕ DbException) :
    σ × TxResult :=
  match query state with
  | Sum.inl committed => (committed, .success)
  | Sum.inr .exclusionViolation => (state, .doubleBookingPrevented)
  | Sum.inr (.undefinedColumn m) => (state, .schemaError m)
  | Sum.inr (.otherError m) => (state, .genericFailure m)

/-! ### Reservation store

Rows of the relational schema, as the queries under src/ read and write
them. Timestamps are minutes (UTC); `booking_period` is a half-open
`tstzrange`. -/

/-- A half-open timestamp range `[lo, hi)` (a `tstzrange` value with
`[)` bounds). Postgres normalizes a range with `hi ≤ lo` to the empty
range. -/
structure TRange where
  lo : Int
  hi : Int
deriving Repr, DecidableEq

/-- Whether the range is empty (Postgres `isempty`). -/
def TRange.isEmpty (r : TRange) : Bool := decide (r.hi ≤ r.lo)

/-- The Postgres `&&` overlap operator on half-open ranges: two
non-empty ranges overlap when each starts before the other ends; an
empty range overlaps nothing. -/
def TRange.overlaps (a b : TRange) : Bool :=
  !a.isEmpty && !b.isEmpty && decide (a.lo < b.hi) && decide (b.lo < a.hi)

/-- A row of `rooms`. `parent_room_id` is the self-referential
combinability link exposed by `get_all_rooms`. -/
structure Room where
  id : Int
  name : String
  capacity : Int
  is_active : Bool
  parent_room_id : Option Int
deriving Repr, DecidableEq

/-- A row of `bookings` (the fields the embedded operations touch).
`room_id` is optional: Modelled from the spec for the schema, which is
not under src/: "optional `room_id` (NULL permitted — this is the
ghost-inventory state meaning not yet assigned a room)". -/
structure Booking where
  id : Int
  room_id : Option Int
  booking_period : TRange
  client_name : String
  status : String
  num_learners : Int
  num_facilitators : Int
  devices_needed : Int
  room_boss_notes : Option String
deriving Repr, DecidableEq

/-- A row of `devices`. -/
structure Device where
  id : Int
  serial_number : String
  name : String
  category_id : Int
  status : String
deriving Repr, DecidableEq

/-- A row of `booking_device_assignments`: either a concrete binding
(`device_id = some _`) or a category-level placeholder
(`device_id = none`). -/
structure BookingDeviceAssignment where
  id : Int
  booking_id : Int
  device_id : Option Int
  device_category_id : Int
  quantity : Int
  assigned_by : Option String
  notes : Option String
deriving Repr, DecidableEq

/-- The datastore state: the tables the embedded operations touch, plus
the serial id counters backing `RETURNING id`. -/
structure Database where
  rooms : List Room
  bookings : List Booking
  devices : List Device
  assignments : List BookingDeviceAssignment
  next_booking_id : Int
  next_assignment_id : Int
deriving Repr, DecidableEq

/-- Number of minutes per day; `t / 1440` (floor) is `t::date`. -/
def minutesPerDay : Int := 1440

/-- The `::date` cast on a timestamp: floor division by minutes per
day (`Int` division rounds toward negative infinity). -/
def toDate (t : Int) : Int := t / minutesPerDay

/-- The availability service turns a start date into the datetime
07:30 UTC on that date (450 minutes past midnight). -/
def availStartDt (d : Int) : Int := d * minutesPerDay + 450

/-- The availability service turns an end date into the datetime
16:30 UTC on that date (990 minutes past midnight). -/
def availEndDt (d : Int) : Int := d * minutesPerDay + 990

/-- The room-approval service turns a start date into midnight UTC on
that date. -/
def approvalStartDt (d : Int) : Int := d * minutesPerDay

/-- The room-approval service turns an end date into 23:59 on that
date (1439 minutes past midnight). -/
def approvalEndDt (d : Int) : Int := d * minutesPerDay + 1439

/-- The device manager combines a date with `datetime.min.time()`:
midnight on that date. -/
def midnightDt (d : Int) : Int := d * minutesPerDay

/-- The status filter `b.status IN ('Room Assigned', 'Confirmed')` used
by every room-conflict query. -/
def activeStatus (s : String) : Bool := s == "Room Assigned" || s == "Confirmed"

/-- A status the workflow treats as terminal. -/
def terminalStatus (s : String) : Bool := s == "Rejected" || s == "Cancelled"

/-- The Python `if exclude_booking_id:` guard is falsy for both `None`
and `0`: passing booking id 0 adds no exclusion filter. -/
def excludeFilter (exclude_booking_id : Option Int) (bid : Int) : Bool :=
  match exclude_booking_id with
  | none => true
  | some ex => ex == 0 || bid != ex

/-- One row of the conflict list both room-conflict queries build:
booking id, client name, `lower(..)::date`, `upper(..)::date`,
status. -/
structure RoomConflict where
  booking_id : Int
  client_name : String
  start_date : Int
  end_date : Int
  status : String
deriving Repr, DecidableEq

/-- Embedding of `AvailabilityService.check_room_conflicts`: the query
keeps bookings whose `room_id` equals the queried id (no combinability
expansion appears in the SQL), whose status is `Room Assigned` or
`Confirmed`, and whose `booking_period` overlaps
`tstzrange(start_date 07:30, end_date 16:30, '[)')`, minus the optional
excluded booking. Result order is not modelled. -/
def availability_check_room_conflicts (db : Database) (room_id : Int)
    (start_date end_date : Int) (exclude_booking_id : Option Int) :
    List RoomConflict :=
  let qr : TRange := ⟨availStartDt start_date, availEndDt end_date⟩
  (db.bookings.filter (fun b =>
      b.room_id == some room_id && activeStatus b.status &&
      b.booking_period.overlaps qr && excludeFilter exclude_booking_id b.id)).map
    (fun b => ⟨b.id, b.client_name, toDate b.booking_period.lo,
               toDate b.booking_period.hi, b.status⟩)

/-- Embedding of `RoomApprovalService.check_room_conflicts`: identical
filter to the availability variant except the query range runs from
00:00 on the start date to 23:59 on the end date. -/
def approval_check_room_conflicts (db : Database) (room_id : Int)
    (start_date end_date : Int) (exclude_booking_id : Option Int) :
    List RoomConflict :=
  let qr : TRange := ⟨approvalStartDt start_date, approvalEndDt end_date⟩
  (db.bookings.filter (fun b =>
      b.room_id == some room_id && activeStatus b.status &&
      b.booking_period.overlaps qr && excludeFilter exclude_booking_id b.id)).map
    (fun b => ⟨b.id, b.client_name, toDate b.booking_period.lo,
               toDate b.booking_period.hi, b.status⟩)

/-- One row of the device-conflict list (`get_device_conflicts`). -/
structure DeviceConflict where
  booking_id : Int
  client_name : String
  room_name : String
  start_date : Int
  end_date : Int
  status : String
deriving Repr, DecidableEq

/-- Embedding of `DeviceManager.get_device_conflicts`: joins
`booking_device_assignments` with `bookings` (by primary key) and
`rooms` (inner join on `room_id`), keeps rows for the queried device
whose booking id differs from `COALESCE(exclude, 0)`, whose status is
NOT IN `('cancelled', 'completed')` (note: lower case, and `Rejected`
is absent), and whose period overlaps
`tstzrange(start_date 00:00, end_date 00:00, '[)')`. -/
def get_device_conflicts (db : Database) (device_id : Int)
    (start_date end_date : Int) (exclude_booking_id : Option Int) :
    List DeviceConflict :=
  let qr : TRange := ⟨midnightDt start_date, midnightDt end_date⟩
  db.assignments.filterMap (fun bda =>
    if bda.device_id == some device_id then
      match db.bookings.find? (fun b => b.id == bda.booking_id) with
      | some b =>
        match b.room_id.bind (fun rid => db.rooms.find? (fun r => r.id == rid)) with
        | some r =>
          if b.id != exclude_booking_id.getD 0 &&
             !(b.status == "cancelled" || b.status == "completed") &&
             b.booking_period.overlaps qr then
            some ⟨b.id, b.client_name, r.name, toDate b.booking_period.lo,
                  toDate b.booking_period.hi, b.status⟩
          else none
        | none => none
      | none => none
    else none)

/-- Modelled from the spec (the claim compares the source against this
spec-side definition): the combinability set of a room is "self + all
rooms linked via the dependency relation" — the room itself, its
parent, and every room whose parent it is. -/
def combinable_set (db : Database) (room_id : Int) : List Int :=
  room_id :: db.rooms.filterMap (fun r =>
    if r.id == room_id then r.parent_room_id
    else if r.parent_room_id == some room_id then some r.id
    else none)

/-- Modelled from the spec (spec-side definition for comparison with
the source): `roomConflicts` as the spec words it — "expands `roomId`
to its full combinability set ... then returns all non-terminal
bookings on any room in that set whose ranges intersect `range`". -/
def spec_room_conflicts (db : Database) (room_id : Int)
    (start_date end_date : Int) (exclude_booking_id : Option Int) :
    List RoomConflict :=
  let qr : TRange := ⟨availStartDt start_date, availEndDt end_date⟩
  (db.bookings.filter (fun b =>
      (match b.room_id with
       | some rid => (combinable_set db room_id).contains rid
       | none => false) &&
      !terminalStatus b.status &&
      b.booking_period.overlaps qr && excludeFilter exclude_booking_id b.id)).map
    (fun b => ⟨b.id, b.client_name, toDate b.booking_period.lo,
               toDate b.booking_period.hi, b.status⟩)

/-! ### Booking workflow (src/models/booking_service.py,
src/models/room_approval_service.py) -/

/-- Modelled from the spec for the storage layer, which is not under
src/: the range-exclusion constraint "spans (room, time-range,
status∈\x7bactive\x7d)". The active statuses are the ones every
conflict query under src/ treats as blocking: `Room Assigned` and
`Confirmed`. A row violates the constraint when another row with a
different id occupies the same room in an active status with an
overlapping period. -/
def exclusionViolates (db : Database) (b : Booking) : Bool :=
  activeStatus b.status &&
  (match b.room_id with
   | some rid => db.bookings.any (fun b2 =>
       b2.id != b.id && b2.room_id == some rid && activeStatus b2.status &&
       b2.booking_period.overlaps b.booking_period)
   | none => false)

/-- Result dict of `create_enhanced_booking`. -/
structure CreateResult where
  success : Bool
  booking_id : Option Int
deriving Repr, DecidableEq

/-- Embedding of `BookingService.create_enhanced_booking`: builds the
period `tstzrange(start_date 07:30, end_date 16:30, '[)')` and inserts
the row with the caller-supplied fields and status. The function runs
NO conflict check of its own; the only thing that can reject the insert
is the storage layer (the spec-modelled exclusion constraint), in which
case the transaction is rolled back and a failure dict returned. -/
def create_enhanced_booking (db : Database) (room_id : Option Int)
    (start_date end_date : Int) (client_name : String)
    (num_learners num_facilitators devices_needed : Int)
    (room_boss_notes : Option String) (status : String) :
    Database × CreateResult :=
  let period : TRange := ⟨availStartDt start_date, availEndDt end_date⟩
  let b : Booking :=
    ⟨db.next_booking_id, room_id, period, client_name, status,
     num_learners, num_facilitators, devices_needed, room_boss_notes⟩
  if exclusionViolates db b then
    (db, ⟨false, none⟩)
  else
    ({ db with bookings := db.bookings ++ [b],
               next_booking_id := db.next_booking_id + 1 },
     ⟨true, some b.id⟩)

/-- Result dict of `assign_room`. -/
structure AssignResult where
  success : Bool
  error : Option String
  override_used : Bool
deriving Repr, DecidableEq

/-- Update one bookings row in place (the SQL `UPDATE ... WHERE id`). -/
def updateBooking (bs : List Booking) (bid : Int) (f : Booking → Booking) :
    List Booking :=
  bs.map (fun b => if b.id == bid then f b else b)

/-- Embedding of `RoomApprovalService.assign_room`: looks up the
booking; rejects unless its status is `Pending`; unless the override
flag is set, re-runs the approval conflict check on the room over the
booking's own dates (excluding the booking itself) and rejects when
conflicts exist; then updates the row to the chosen room with status
`Room Assigned` and the given notes and commits. The spec-modelled
storage constraint can still reject the update, rolling it back. The
source fetches the room's name only AFTER the commit, so a missing room
id yields an error dict while the committed update persists. -/
def assign_room (db : Database) (booking_id room_id : Int)
    (notes : Option String) (override_conflict : Bool) :
    Database × AssignResult :=
  match db.bookings.find? (fun b => b.id == booking_id) with
  | none => (db, ⟨false, some "Booking not found", override_conflict⟩)
  | some b =>
    if b.status != "Pending" then
      (db, ⟨false, some "Booking status is not Pending", override_conflict⟩)
    else
      let sd := toDate b.booking_period.lo
      let ed := toDate b.booking_period.hi
      if !override_conflict &&
         !(approval_check_room_conflicts db room_id sd ed (some booking_id)).isEmpty then
        (db, ⟨false, some "Room conflicts detected. Use override to proceed anyway.",
              override_conflict⟩)
      else
        let b2 := { b with room_id := some room_id, status := "Room Assigned",
                           room_boss_notes := notes }
        if exclusionViolates db b2 then
          (db, ⟨false, some "Database error: Double Booking Prevented by Database Constraint.",
                override_conflict⟩)
        else
          let upd : Booking → Booking := fun bb =>
            { bb with room_id := some room_id, status := "Room Assigned",
                      room_boss_notes := notes }
          let db2 := { db with bookings := updateBooking db.bookings booking_id upd }
          match db.rooms.find? (fun r => r.id == room_id) with
          | some _ => (db2, ⟨true, none, override_conflict⟩)
          | none => (db2, ⟨false, some "Database error", override_conflict⟩)

/-! ### Device reallocation (src/models/device_manager.py) -/

/-- Result dict of `reallocate_device`. -/
structure ReallocResult where
  success : Bool
  error : Option String
deriving Repr, DecidableEq

/-- Environment of one `reallocate_device` call: whether each of the
two separate `db.run_transaction` calls (the DELETE from the source
booking and the INSERT into the target booking) raises a storage-level
exception. -/
structure ReallocEnv where
  deleteFails : Bool
  insertFails : Bool
deriving Repr, DecidableEq

/-- Embedding of `DeviceManager.reallocate_device`. The `if not x:`
validation guards are falsy for id 0 and for the empty string. Step 1
DELETEs the source binding through `run_transaction` — a transaction of
its own, committed on its own. Step 2 looks up the device's category
and returns an error when the device does not exist. Step 3 INSERTs the
target binding through a second, separate `run_transaction`; when that
transaction raises, the exception is caught and a failure dict
returned — but the Step 1 delete has already been committed. -/
def reallocate_device (db : Database) (env : ReallocEnv)
    (device_id from_booking_id to_booking_id : Int) (performed_by : String)
    (reason : Option String) : Database × ReallocResult :=
  if device_id == 0 then (db, ⟨false, some "device_id is required"⟩)
  else if from_booking_id == 0 then (db, ⟨false, some "from_booking_id is required"⟩)
  else if to_booking_id == 0 then (db, ⟨false, some "to_booking_id is required"⟩)
  else if performed_by == "" then (db, ⟨false, some "performed_by is required"⟩)
  else if env.deleteFails then (db, ⟨false, some "transaction failed"⟩)
  else
    let db1 := { db with assignments := db.assignments.filter (fun a =>
                  !(a.device_id == some device_id &&
                    a.booking_id == from_booking_id)) }
    match db1.devices.find? (fun d => d.id == device_id) with
    | none => (db1, ⟨false, some "Device not found"⟩)
    | some dev =>
      if env.insertFails then (db1, ⟨false, some "transaction failed"⟩)
      else
        let note := "Reallocated from booking " ++ toString from_booking_id ++
          (match reason with
           | some r => ". Reason: " ++ r
           | none => "")
        let a : BookingDeviceAssignment :=
          ⟨db1.next_assignment_id, to_booking_id, some device_id,
           dev.category_id, 1, some performed_by, some note⟩
        ({ db1 with assignments := db1.assignments ++ [a],
                    next_assignment_id := db1.next_assignment_id + 1 },
         ⟨true, none⟩)

/-- Whether some assignment row binds the device to the booking. -/
def device_bound_to (db : Database) (device_id booking_id : Int) : Bool :=
  db.assignments.any (fun a =>
    a.device_id == some device_id && a.booking_id == booking_id)

/-! ### Concrete datastore states for the counterexamples and
witnesses -/

/-- Rooms 1 and 2 are the two halves of the combined room 3 ("sliding
doors"): both carry `parent_room_id = 3`. One Confirmed booking
occupies the combined room 3 on day 100. -/
def dbSliding : Database :=
  ⟨[⟨1, "Room 1", 10, true, some 3⟩, ⟨2, "Room 2", 10, true, some 3⟩,
    ⟨3, "Room 1+2", 20, true, none⟩],
   [⟨101, some 3, ⟨100 * 1440 + 450, 100 * 1440 + 990⟩, "Acme", "Confirmed",
     5, 1, 0, none⟩],
   [], [], 102, 1⟩

/-- One Rejected booking on room 1 over days 100-101 holding device 4
via assignment 1. -/
def dbRejectedDevice : Database :=
  ⟨[⟨1, "Room 1", 10, true, none⟩],
   [⟨7, some 1, ⟨100 * 1440 + 450, 101 * 1440 + 990⟩, "Beta", "Rejected",
     5, 1, 1, none⟩],
   [⟨4, "SN-004", "Laptop 4", 5, "available"⟩],
   [⟨1, 7, some 4, 5, 1, none, none⟩], 8, 2⟩

/-- Device 1 (category 5) bound to booking 10; bookings 10 and 20 both
exist on distinct rooms. -/
def dbRealloc : Database :=
  ⟨[⟨1, "Room 1", 10, true, none⟩, ⟨2, "Room 2", 10, true, none⟩],
   [⟨10, some 1, ⟨100 * 1440 + 450, 100 * 1440 + 990⟩, "Src", "Confirmed",
     5, 1, 1, none⟩,
    ⟨20, some 2, ⟨200 * 1440 + 450, 200 * 1440 + 990⟩, "Tgt", "Confirmed",
     5, 1, 1, none⟩],
   [⟨1, "SN-001", "Laptop 1", 5, "available"⟩],
   [⟨1, 10, some 1, 5, 1, none, none⟩], 21, 2⟩

/-- A Confirmed booking occupies room 1 on day 100. -/
def dbConfirmedRoom1 : Database :=
  ⟨[⟨1, "Room 1", 10, true, none⟩, ⟨2, "Room 2", 10, true, none⟩],
   [⟨50, some 1, ⟨100 * 1440 + 450, 100 * 1440 + 990⟩, "Held", "Confirmed",
     5, 1, 0, none⟩],
   [], [], 51, 1⟩

/-- A roomless Pending booking 60 (the ghost-inventory state) awaiting
room assignment; rooms 1 and 2 are free. -/
def dbPending : Database :=
  ⟨[⟨1, "Room 1", 10, true, none⟩, ⟨2, "Room 2", 10, true, none⟩],
   [⟨60, none, ⟨300 * 1440 + 450, 300 * 1440 + 990⟩, "Ghost", "Pending",
     3, 1, 0, none⟩],
   [], [], 61, 1⟩

end ColabErp

namespace ColabErp

/-! ### Theorems: connection guard and transaction layer -/

/-- The saturation estimate exceeds the 90% threshold exactly when the
guard's own counter is at least 11 (since (11 + 8) / 20 = 0.95 > 0.9
and (10 + 8) / 20 = 0.9 is not strictly above the threshold). -/
theorem saturation_gt_iff (count : Nat) :
    SATURATION_THRESHOLD < checkPoolSaturation count ↔ 11 ≤ count := by
  unfold SATURATION_THRESHOLD checkPoolSaturation ESTIMATED_UI_CONNECTIONS MAXCONN
  rw [div_lt_div_iff₀ (by norm_num) (by norm_num)]
  push_cast
  constructor
  · intro h
    by_contra hc
    push_neg at hc
    have hle : (count : ℚ) ≤ 10 := by exact_mod_cast Nat.le_of_lt_succ hc
    nlinarith
  · intro h
    have hge : (11 : ℚ) ≤ (count : ℚ) := by exact_mod_cast h
    nlinarith

/-- With a handle held (the body raised `PoolError` and the retry
`except` caught it), the loop can only end in retries-exhausted (the
held handle returned by the `finally`), a tagging failure on the
re-checkout, or a second `yield`; it never completes normally and never
reports the body's exception. The held handle's increment is undone
exactly when its handle is returned. -/
theorem acquireLoop_spec_held (count : Nat) (env : AcquireEnv) :
    ∀ fuel calls acquired,
      (acquireLoop count env fuel calls true acquired).result ≠ .poolSaturated ∧
      (acquireLoop count env fuel calls true acquired).result ≠ .completed ∧
      (acquireLoop count env fuel calls true acquired).result ≠ .bodyError ∧
      ((acquireLoop count env fuel calls true acquired).result = .connectionError →
        (acquireLoop count env fuel calls true acquired).putconnCalls = 1 ∧
        (acquireLoop count env fuel calls true acquired).handlesAcquired = acquired ∧
        (acquireLoop count env fuel calls true acquired).finalCount = count ∧
        (acquireLoop count env fuel calls true acquired).gcPutconn = 0 ∧
        (acquireLoop count env fuel calls true acquired).gcCount = count) ∧
      ((acquireLoop count env fuel calls true acquired).result = .tagError →
        (acquireLoop count env fuel calls true acquired).putconnCalls = 1 ∧
        (acquireLoop count env fuel calls true acquired).handlesAcquired = acquired + 1 ∧
        (acquireLoop count env fuel calls true acquired).finalCount = count ∧
        (acquireLoop count env fuel calls true acquired).gcPutconn = 0 ∧
        (acquireLoop count env fuel calls true acquired).gcCount = count) ∧
      ((acquireLoop count env fuel calls true acquired).result = .reentrantYield →
        (acquireLoop count env fuel calls true acquired).putconnCalls = 0 ∧
        (acquireLoop count env fuel calls true acquired).handlesAcquired = acquired + 1 ∧
        (acquireLoop count env fuel calls true acquired).finalCount = count + 2 ∧
        (acquireLoop count env fuel calls true acquired).gcPutconn = 1 ∧
        (acquireLoop count env fuel calls true acquired).gcCount = count + 1) := by
  intro fuel
  induction fuel with
  | zero =>
    intro calls acquired
    simp [acquireLoop]
  | succ n ih =>
    intro calls acquired
    cases hg : env.getconnOutcome calls with
    | poolError =>
      simpa [acquireLoop, hg] using ih (calls + 1) acquired
    | ok =>
      cases ht : env.tagOk calls <;> simp [acquireLoop, hg, ht]

/-- Full characterization of the retry loop entered with no handle
held: the normal paths return the one handle exactly once and restore
the counter; retries-exhausted returns exactly the handles it checked
out (0, or 1 when the body's `PoolError` left one held) and restores
the counter; a tagging failure returns the current handle but ends the
counter one low (first checkout) or leaks the first handle (tagging of
the re-checkout); the second-yield path leaks the first handle, returns
nothing by scope exit with the counter two high, and even after the
generator's close only the second handle is returned, the counter one
high. When every tagging step succeeds and the body does not raise
`PoolError`, the counter always returns to its pre-call value. -/
theorem acquireLoop_spec_free (count : Nat) (env : AcquireEnv) :
    ∀ fuel calls acquired,
      (acquireLoop count env fuel calls false acquired).result ≠ .poolSaturated ∧
      ((acquireLoop count env fuel calls false acquired).result = .completed ∨
       (acquireLoop count env fuel calls false acquired).result = .bodyError →
        (acquireLoop count env fuel calls false acquired).putconnCalls = 1 ∧
        (acquireLoop count env fuel calls false acquired).handlesAcquired = acquired + 1 ∧
        (acquireLoop count env fuel calls false acquired).finalCount = count ∧
        (acquireLoop count env fuel calls false acquired).gcPutconn = 0 ∧
        (acquireLoop count env fuel calls false acquired).gcCount = count) ∧
      ((acquireLoop count env fuel calls false acquired).result = .connectionError →
        (acquireLoop count env fuel calls false acquired).finalCount = count ∧
        (acquireLoop count env fuel calls false acquired).gcPutconn = 0 ∧
        (acquireLoop count env fuel calls false acquired).gcCount = count ∧
        (((acquireLoop count env fuel calls false acquired).putconnCalls = 0 ∧
          (acquireLoop count env fuel calls false acquired).handlesAcquired = acquired) ∨
         ((acquireLoop count env fuel calls false acquired).putconnCalls = 1 ∧
          (acquireLoop count env fuel calls false acquired).handlesAcquired = acquired + 1))) ∧
      ((acquireLoop count env fuel calls false acquired).result = .tagError →
        (acquireLoop count env fuel calls false acquired).putconnCalls = 1 ∧
        (acquireLoop count env fuel calls false acquired).gcPutconn = 0 ∧
        (acquireLoop count env fuel calls false acquired).gcCount =
          (acquireLoop count env fuel calls false acquired).finalCount ∧
        (((acquireLoop count env fuel calls false acquired).handlesAcquired = acquired + 1 ∧
          (acquireLoop count env fuel calls false acquired).finalCount = count - 1) ∨
         ((acquireLoop count env fuel calls false acquired).handlesAcquired = acquired + 2 ∧
          (acquireLoop count env fuel calls false acquired).finalCount = count))) ∧
      ((acquireLoop count env fuel calls false acquired).result = .reentrantYield →
        (acquireLoop count env fuel calls false acquired).putconnCalls = 0 ∧
        (acquireLoop count env fuel calls false acquired).handlesAcquired = acquired + 2 ∧
        (acquireLoop count env fuel calls false acquired).finalCount = count + 2 ∧
        (acquireLoop count env fuel calls false acquired).gcPutconn = 1 ∧
        (acquireLoop count env fuel calls false acquired).gcCount = count + 1) ∧
      ((∀ i, env.tagOk i = true) → env.body ≠ .raisesPoolError →
        (acquireLoop count env fuel calls false acquired).finalCount = count) := by
  intro fuel
  induction fuel with
  | zero =>
    intro calls acquired
    simp [acquireLoop]
  | succ n ih =>
    intro calls acquired
    cases hg : env.getconnOutcome calls with
    | poolError =>
      simpa [acquireLoop, hg] using ih (calls + 1) acquired
    | ok =>
      cases ht : env.tagOk calls with
      | false =>
        refine ⟨by simp [acquireLoop, hg, ht], by simp [acquireLoop, hg, ht],
          by simp [acquireLoop, hg, ht], by simp [acquireLoop, hg, ht],
          by simp [acquireLoop, hg, ht], ?_⟩
        intro htall _
        exact absurd (htall calls) (by simp [ht])
      | true =>
        cases hb : env.body with
        | ok => simp [acquireLoop, hg, ht, hb]
        | raisesOther => simp [acquireLoop, hg, ht, hb]
        | raisesPoolError =>
          have hrec : acquireLoop count env (n + 1) calls false acquired =
              acquireLoop count env n (calls + 1) true (acquired + 1) := by
            simp [acquireLoop, hg, ht, hb]
          obtain ⟨hs, hc, hbe, hconn, htag, hre⟩ :=
            acquireLoop_spec_held count env n (calls + 1) (acquired + 1)
          rw [hrec]
          refine ⟨hs, ?_, ?_, ?_, ?_, ?_⟩
          · rintro (hr | hr)
            · exact absurd hr hc
            · exact absurd hr hbe
          · intro hr
            obtain ⟨p1, p2, p3, p4, p5⟩ := hconn hr
            exact ⟨p3, p4, p5, Or.inr ⟨p1, p2⟩⟩
          · intro hr
            obtain ⟨p1, p2, p3, p4, p5⟩ := htag hr
            exact ⟨p1, p4, by rw [p5, p3], Or.inr ⟨p2, p3⟩⟩
          · intro hr
            obtain ⟨p1, p2, p3, p4, p5⟩ := hre hr
            exact ⟨p1, p2, p3, p4, p5⟩
          · intro _ hbody
            exact absurd rfl hbody

/-- C4: for every acquisition attempt, `get_agent_connection` raises
the `PoolSaturationError` condition exactly when the saturation
estimate exceeds the configured threshold (default 90%), and in that
case it does so before any call into the underlying pool's acquisition
(`pool.getconn` runs zero times). -/
theorem C4_breaker_fail_fast (count : Nat) (env : AcquireEnv) :
    ((getAgentConnection count env).result = AcquireResult.poolSaturated ↔
      SATURATION_THRESHOLD < checkPoolSaturation count) ∧
    (SATURATION_THRESHOLD < checkPoolSaturation count →
      (getAgentConnection count env).getconnCalls = 0) := by
  by_cases h : SATURATION_THRESHOLD < checkPoolSaturation count
  · simp [getAgentConnection, h]
  · have hs := (acquireLoop_spec_free count env MAX_RETRIES 0 0).1
    simp only [getAgentConnection, if_neg h]
    exact ⟨by simp [hs, h], fun hc => absurd hc h⟩

/-- C4 witness: with the counter forced to 12 the estimate is 100% and
an acquisition fails immediately with zero pool calls. -/
theorem C4_breaker_fail_fast_witness :
    (getAgentConnection 12 envAllOk).result = AcquireResult.poolSaturated ∧
    (getAgentConnection 12 envAllOk).getconnCalls = 0 :=
  ⟨(C4_breaker_fail_fast 12 envAllOk).1.mpr ((saturation_gt_iff 12).mpr (by norm_num)),
   (C4_breaker_fail_fast 12 envAllOk).2 ((saturation_gt_iff 12).mpr (by norm_num))⟩

/-- C10: the saturation estimate is `(count + 8) / 20`, a pure function
of the guard's own checked-out counter; it is never below 0.4; and the
circuit breaker triggers exactly when the counter is at least 11. -/
theorem C10_saturation_estimate (count : Nat) (env : AcquireEnv) :
    checkPoolSaturation count = ((count : ℚ) + 8) / 20 ∧
    (2 / 5 : ℚ) ≤ checkPoolSaturation count ∧
    ((getAgentConnection count env).result = AcquireResult.poolSaturated ↔
      11 ≤ count) := by
  refine ⟨?_, ?_, ?_⟩
  · unfold checkPoolSaturation ESTIMATED_UI_CONNECTIONS MAXCONN
    push_cast
    ring
  · unfold checkPoolSaturation ESTIMATED_UI_CONNECTIONS MAXCONN
    rw [le_div_iff₀ (by norm_num)]
    push_cast
    have : (0 : ℚ) ≤ (count : ℚ) := Nat.cast_nonneg count
    linarith
  · by_cases h : SATURATION_THRESHOLD < checkPoolSaturation count
    · simp only [getAgentConnection, if_pos h]
      simpa using (saturation_gt_iff count).mp h
    · have hs := (acquireLoop_spec_free count env MAX_RETRIES 0 0).1
      simp only [getAgentConnection, if_neg h]
      constructor
      · intro hr
        exact absurd hr hs
      · intro hc
        exact absurd ((saturation_gt_iff count).mpr hc) h

/-- C10 witness: at counter 11 the breaker triggers; the estimate there
is 19/20. -/
theorem C10_saturation_estimate_witness :
    (getAgentConnection 11 envAllOk).result = AcquireResult.poolSaturated ∧
    checkPoolSaturation 11 = ((11 : ℚ) + 8) / 20 :=
  ⟨(C10_saturation_estimate 11 envAllOk).2.2.mpr (by norm_num),
   (C10_saturation_estimate 11 envAllOk).1⟩

/-- C3 counterexample: with one connection already checked out
(pre-call count 1), a checkout whose tagging step fails returns the
handle to the pool exactly once, but the tracked count ends at 0, not
at its pre-call value 1 — the `finally` block decrements without a
matching increment. The claim that the count returns to its pre-call
value on every exit path is false. -/
theorem C3_counterexample :
    (getAgentConnection 1 envTagFail).putconnCalls = 1 ∧
    (getAgentConnection 1 envTagFail).finalCount = 0 ∧
    ¬(getAgentConnection 1 envTagFail).finalCount = 1 := by
  have h : ¬SATURATION_THRESHOLD < checkPoolSaturation 1 := by
    intro hc
    have := (saturation_gt_iff 1).mp hc
    omega
  simp [getAgentConnection, h, MAX_RETRIES, acquireLoop, envTagFail]

/-- C3 amended: on the normal paths (body returns or raises a
non-PoolError exception) the one checked-out handle is returned exactly
once and the counter returns to its pre-call value, as it does whenever
every tagging step succeeds and the body does not raise `PoolError`.
The guarantee is NOT universal: on the tagging-failure path the counter
is decremented without a matching increment (one below pre-call,
clamped at zero); and when the body raises `psycopg2.pool.PoolError`,
the retry `except` that encloses the `yield` catches it while the
handle is held — if the retries then exhaust, `AgentConnectionError` is
raised with the held handle returned once and the counter restored, but
if a retry checks out a second handle, the first is leaked (never
returned), the second `yield` aborts the context manager with
`RuntimeError`, at scope exit no handle has been returned and the
counter is two above its pre-call value, and even after the suspended
generator is closed only the second handle is returned and the counter
stays one above. -/
theorem C3_handle_conservation (count : Nat) (env : AcquireEnv) :
    ((getAgentConnection count env).result = AcquireResult.completed ∨
     (getAgentConnection count env).result = AcquireResult.bodyError →
      (getAgentConnection count env).putconnCalls = 1 ∧
      (getAgentConnection count env).handlesAcquired = 1 ∧
      (getAgentConnection count env).finalCount = count) ∧
    ((getAgentConnection count env).result = AcquireResult.poolSaturated →
      (getAgentConnection count env).handlesAcquired = 0 ∧
      (getAgentConnection count env).putconnCalls = 0 ∧
      (getAgentConnection count env).finalCount = count) ∧
    ((getAgentConnection count env).result = AcquireResult.connectionError →
      (getAgentConnection count env).finalCount = count ∧
      (getAgentConnection count env).putconnCalls =
        (getAgentConnection count env).handlesAcquired ∧
      (getAgentConnection count env).handlesAcquired ≤ 1) ∧
    ((getAgentConnection count env).result = AcquireResult.tagError →
      (getAgentConnection count env).putconnCalls = 1 ∧
      (((getAgentConnection count env).handlesAcquired = 1 ∧
        (getAgentConnection count env).finalCount = count - 1) ∨
       ((getAgentConnection count env).handlesAcquired = 2 ∧
        (getAgentConnection count env).finalCount = count))) ∧
    ((getAgentConnection count env).result = AcquireResult.reentrantYield →
      (getAgentConnection count env).handlesAcquired = 2 ∧
      (getAgentConnection count env).putconnCalls = 0 ∧
      (getAgentConnection count env).finalCount = count + 2 ∧
      (getAgentConnection count env).gcPutconn = 1 ∧
      (getAgentConnection count env).gcCount = count + 1) ∧
    ((∀ i, env.tagOk i = true) → env.body ≠ BodyOutcome.raisesPoolError →
      (getAgentConnection count env).finalCount = count) := by
  by_cases h : SATURATION_THRESHOLD < checkPoolSaturation count
  · simp [getAgentConnection, h]
  · obtain ⟨h1, h2, h3, h4, h5, h6⟩ := acquireLoop_spec_free count env MAX_RETRIES 0 0
    simp only [getAgentConnection, if_neg h]
    refine ⟨fun hr => ⟨(h2 hr).1, (h2 hr).2.1, (h2 hr).2.2.1⟩,
      fun hr => absurd hr h1, ?_, ?_, fun hr => ?_, h6⟩
    · intro hr
      obtain ⟨p1, -, -, hd⟩ := h3 hr
      rcases hd with ⟨q1, q2⟩ | ⟨q1, q2⟩ <;> simp [p1, q1, q2]
    · intro hr
      obtain ⟨p1, -, -, hd⟩ := h4 hr
      exact ⟨p1, hd⟩
    · obtain ⟨p1, p2, p3, p4, p5⟩ := h5 hr
      exact ⟨p2, p1, p3, p4, p5⟩

/-- C3 amended witness: a fully successful acquisition at pre-call
count 2 returns the one handle once and restores the count to 2. -/
theorem C3_handle_conservation_witness :
    (getAgentConnection 2 envAllOk).putconnCalls = 1 ∧
    (getAgentConnection 2 envAllOk).handlesAcquired = 1 ∧
    (getAgentConnection 2 envAllOk).finalCount = 2 := by
  have hres : (getAgentConnection 2 envAllOk).result = AcquireResult.completed := by
    have h : ¬SATURATION_THRESHOLD < checkPoolSaturation 2 := by
      intro hc
      have := (saturation_gt_iff 2).mp hc
      omega
    simp [getAgentConnection, h, MAX_RETRIES, acquireLoop, envAllOk]
  obtain ⟨p1, p2, p3⟩ := (C3_handle_conservation 2 envAllOk).1 (Or.inl hres)
  exact ⟨p1, p2, (C3_handle_conservation 2 envAllOk).2.2.2.2.2
    (fun _ => rfl) (by decide)⟩

/-- C2: when a write executed through `run_transaction` hits the
storage-level `ExclusionViolation`, the transaction is rolled back (the
datastore state handed to the caller is the pre-call state) and the
failure surfaces as the distinct domain-level double-booking error —
and that error arises from no other outcome, so it is never a generic
failure and a generic failure never masks it. -/
theorem C2_run_transaction_exclusion {σ : Type} (state : σ)
    (query : σ → σ ⊕ DbException) :
    (query state = Sum.inr DbException.exclusionViolation →
      run_transaction state query = (state, TxResult.doubleBookingPrevented)) ∧
    ((run_transaction state query).2 = TxResult.doubleBookingPrevented ↔
      query state = Sum.inr DbException.exclusionViolation) := by
  constructor
  · intro h
    simp [run_transaction, h]
  · cases hq : query state with
    | inl s => simp [run_transaction, hq]
    | inr e => cases e <;> simp [run_transaction, hq]

/-- C2 witness: a write over the state 5 that raises the exclusion
violation leaves the state at 5 and yields the double-booking error. -/
theorem C2_run_transaction_exclusion_witness :
    run_transaction (5 : Nat) (fun _ => Sum.inr DbException.exclusionViolation) =
      ((5 : Nat), TxResult.doubleBookingPrevented) :=
  (C2_run_transaction_exclusion 5 (fun _ => Sum.inr DbException.exclusionViolation)).1 rfl

/-! ### Membership characterizations of the three conflict queries -/

/-- A row is in the availability-service conflict list exactly when
some booking on the EXACT queried room (no expansion), in an active
status, not excluded, overlaps the query window 07:30..16:30. -/
theorem mem_availability_check (db : Database) (rid sd ed : Int)
    (ex : Option Int) (e : RoomConflict) :
    e ∈ availability_check_room_conflicts db rid sd ed ex ↔
    ∃ b, b ∈ db.bookings ∧ b.room_id = some rid ∧ activeStatus b.status = true ∧
      b.booking_period.overlaps ⟨availStartDt sd, availEndDt ed⟩ = true ∧
      excludeFilter ex b.id = true ∧
      e = ⟨b.id, b.client_name, toDate b.booking_period.lo,
           toDate b.booking_period.hi, b.status⟩ := by
  simp only [availability_check_room_conflicts, List.mem_map, List.mem_filter,
    Bool.and_eq_true, beq_iff_eq]
  constructor
  · rintro ⟨b, ⟨hb, ⟨⟨⟨hroom, hstat⟩, hov⟩, hex⟩⟩, rfl⟩
    exact ⟨b, hb, hroom, hstat, hov, hex, rfl⟩
  · rintro ⟨b, hb, hroom, hstat, hov, hex, rfl⟩
    exact ⟨b, ⟨hb, ⟨⟨⟨hroom, hstat⟩, hov⟩, hex⟩⟩, rfl⟩

/-- Same characterization for the room-approval variant, whose query
window is 00:00..23:59. -/
theorem mem_approval_check (db : Database) (rid sd ed : Int)
    (ex : Option Int) (e : RoomConflict) :
    e ∈ approval_check_room_conflicts db rid sd ed ex ↔
    ∃ b, b ∈ db.bookings ∧ b.room_id = some rid ∧ activeStatus b.status = true ∧
      b.booking_period.overlaps ⟨approvalStartDt sd, approvalEndDt ed⟩ = true ∧
      excludeFilter ex b.id = true ∧
      e = ⟨b.id, b.client_name, toDate b.booking_period.lo,
           toDate b.booking_period.hi, b.status⟩ := by
  simp only [approval_check_room_conflicts, List.mem_map, List.mem_filter,
    Bool.and_eq_true, beq_iff_eq]
  constructor
  · rintro ⟨b, ⟨hb, ⟨⟨⟨hroom, hstat⟩, hov⟩, hex⟩⟩, rfl⟩
    exact ⟨b, hb, hroom, hstat, hov, hex, rfl⟩
  · rintro ⟨b, hb, hroom, hstat, hov, hex, rfl⟩
    exact ⟨b, ⟨hb, ⟨⟨⟨hroom, hstat⟩, hov⟩, hex⟩⟩, rfl⟩

/-- A row is in the device-conflict list exactly when some assignment
binds the device to a booking (with a resolvable room) that is not the
excluded one, whose status is not exactly `cancelled` or `completed`,
and whose period overlaps the midnight-to-midnight query window. -/
theorem mem_device_conflicts (db : Database) (did sd ed : Int)
    (ex : Option Int) (e : DeviceConflict) :
    e ∈ get_device_conflicts db did sd ed ex ↔
    ∃ bda b r, bda ∈ db.assignments ∧ bda.device_id = some did ∧
      db.bookings.find? (fun b2 => b2.id == bda.booking_id) = some b ∧
      b.room_id.bind (fun rid => db.rooms.find? (fun r2 => r2.id == rid)) = some r ∧
      b.id ≠ ex.getD 0 ∧ ¬(b.status = "cancelled" ∨ b.status = "completed") ∧
      b.booking_period.overlaps ⟨midnightDt sd, midnightDt ed⟩ = true ∧
      e = ⟨b.id, b.client_name, r.name, toDate b.booking_period.lo,
           toDate b.booking_period.hi, b.status⟩ := by
  simp only [get_device_conflicts, List.mem_filterMap]
  constructor
  · rintro ⟨bda, hbda, hf⟩
    split at hf
    case isTrue hdev =>
      split at hf
      next b hfind =>
        split at hf
        next r hroom =>
          split at hf
          case isTrue hcond =>
            obtain rfl := Option.some.inj hf
            simp only [Bool.and_eq_true, bne_iff_ne, Bool.not_eq_true',
              Bool.or_eq_false_iff, beq_eq_false_iff_ne] at hcond
            exact ⟨bda, b, r, hbda, by simpa using hdev, hfind, hroom,
              hcond.1.1, by rintro (h | h) <;> simp [h] at hcond, hcond.2, rfl⟩
          case isFalse => simp at hf
        next hroom => simp at hf
      next hfind => simp at hf
    case isFalse => simp at hf
  · rintro ⟨bda, b, r, hbda, hdev, hfind, hroom, hid, hstat, hov, rfl⟩
    refine ⟨bda, hbda, ?_⟩
    rw [if_pos (by simpa using hdev)]
    simp only [hfind, hroom]
    rw [if_pos ?_]
    simp only [Bool.and_eq_true, bne_iff_ne, Bool.not_eq_true',
      Bool.or_eq_false_iff, beq_eq_false_iff_ne]
    exact ⟨⟨hid, fun h => hstat (Or.inl h), fun h => hstat (Or.inr h)⟩, hov⟩

/-- C1 counterexample: rooms 1 and 3 are combinable (room 1's
`parent_room_id` is 3) yet with a Confirmed booking occupying the
combined room 3 over day 100, both room-conflict checks on room 1 over
day 100 return NO conflicts, while the spec's expansion-based
`roomConflicts` returns that booking: the code never expands the queried
room id to its combinability set, so sliding-doors symmetry fails. -/
theorem C1_counterexample :
    availability_check_room_conflicts dbSliding 1 100 100 none = [] ∧
    approval_check_room_conflicts dbSliding 1 100 100 none = [] ∧
    spec_room_conflicts dbSliding 1 100 100 none =
      [⟨101, "Acme", 100, 100, "Confirmed"⟩] ∧
    (combinable_set dbSliding 1).contains 3 = true :=
  ⟨rfl, rfl, rfl, rfl⟩

/-- C1 amended: both room-conflict checks consider only bookings whose
`room_id` equals the EXACT queried id — no combinability expansion —
and within that room they return precisely the bookings in an active
status, not excluded, whose ranges intersect the query window; a
booking on a room linked via the parent/dependency relation is never
reported. -/
theorem C1_exact_room_only (db : Database) (rid sd ed : Int) (ex : Option Int) :
    (∀ e ∈ availability_check_room_conflicts db rid sd ed ex,
       ∃ b, b ∈ db.bookings ∧ b.id = e.booking_id ∧ b.room_id = some rid ∧
         activeStatus b.status = true ∧
         b.booking_period.overlaps ⟨availStartDt sd, availEndDt ed⟩ = true) ∧
    (∀ b ∈ db.bookings, b.room_id = some rid → activeStatus b.status = true →
       b.booking_period.overlaps ⟨availStartDt sd, availEndDt ed⟩ = true →
       excludeFilter ex b.id = true →
       ∃ e ∈ availability_check_room_conflicts db rid sd ed ex,
         e.booking_id = b.id) ∧
    (∀ e ∈ approval_check_room_conflicts db rid sd ed ex,
       ∃ b, b ∈ db.bookings ∧ b.id = e.booking_id ∧ b.room_id = some rid ∧
         activeStatus b.status = true ∧
         b.booking_period.overlaps ⟨approvalStartDt sd, approvalEndDt ed⟩ = true) ∧
    (∀ b ∈ db.bookings, b.room_id = some rid → activeStatus b.status = true →
       b.booking_period.overlaps ⟨approvalStartDt sd, approvalEndDt ed⟩ = true →
       excludeFilter ex b.id = true →
       ∃ e ∈ approval_check_room_conflicts db rid sd ed ex,
         e.booking_id = b.id) := by
  refine ⟨?_, ?_, ?_, ?_⟩
  · intro e he
    obtain ⟨b, hb, hroom, hstat, hov, _, rfl⟩ :=
      (mem_availability_check db rid sd ed ex e).mp he
    exact ⟨b, hb, rfl, hroom, hstat, hov⟩
  · intro b hb h1 h2 h3 h4
    exact ⟨_, (mem_availability_check db rid sd ed ex _).mpr
      ⟨b, hb, h1, h2, h3, h4, rfl⟩, rfl⟩
  · intro e he
    obtain ⟨b, hb, hroom, hstat, hov, _, rfl⟩ :=
      (mem_approval_check db rid sd ed ex e).mp he
    exact ⟨b, hb, rfl, hroom, hstat, hov⟩
  · intro b hb h1 h2 h3 h4
    exact ⟨_, (mem_approval_check db rid sd ed ex _).mpr
      ⟨b, hb, h1, h2, h3, h4, rfl⟩, rfl⟩

/-- C1 amended witness: the Confirmed booking 50 on room 1 is reported
when room 1 itself is queried over day 100. -/
theorem C1_exact_room_only_witness :
    ∃ e ∈ availability_check_room_conflicts dbConfirmedRoom1 1 100 100 none,
      e.booking_id = 50 :=
  (C1_exact_room_only dbConfirmedRoom1 1 100 100 none).2.1
    ⟨50, some 1, ⟨100 * 1440 + 450, 100 * 1440 + 990⟩, "Held", "Confirmed",
     5, 1, 0, none⟩
    (by decide) rfl rfl (by decide) rfl

/-- C7 counterexample: a booking in the terminal state `Rejected`
holding device 4 over days 100-101 IS returned by the device-conflict
query (whose status filter excludes only the exact strings `cancelled`
and `completed`), so terminal bookings do appear in device conflict
results. -/
theorem C7_counterexample :
    (get_device_conflicts dbRejectedDevice 4 100 101 none).map
        (fun e => (e.booking_id, e.status)) = [(7, "Rejected")] ∧
    terminalStatus "Rejected" = true :=
  ⟨rfl, rfl⟩

/-- C7 amended: the room-conflict queries return only bookings whose
status is `Room Assigned` or `Confirmed`, so Rejected/Cancelled
bookings never appear there; the device-conflict query however excludes
only bookings whose status is exactly `cancelled` or `completed`
(lower case), so bookings in the workflow's terminal states `Rejected`
and `Cancelled` can appear in device conflict results. -/
theorem C7_terminal_exclusion_scope (db : Database) (rid did sd ed : Int)
    (ex : Option Int) :
    (∀ e ∈ availability_check_room_conflicts db rid sd ed ex,
       e.status = "Room Assigned" ∨ e.status = "Confirmed") ∧
    (∀ e ∈ approval_check_room_conflicts db rid sd ed ex,
       e.status = "Room Assigned" ∨ e.status = "Confirmed") ∧
    (∀ e ∈ get_device_conflicts db did sd ed ex,
       e.status ≠ "cancelled" ∧ e.status ≠ "completed") := by
  refine ⟨?_, ?_, ?_⟩
  · intro e he
    obtain ⟨b, _, _, hstat, _, _, rfl⟩ :=
      (mem_availability_check db rid sd ed ex e).mp he
    simpa [activeStatus] using hstat
  · intro e he
    obtain ⟨b, _, _, hstat, _, _, rfl⟩ :=
      (mem_approval_check db rid sd ed ex e).mp he
    simpa [activeStatus] using hstat
  · intro e he
    obtain ⟨bda, b, r, _, _, _, _, _, hstat, _, rfl⟩ :=
      (mem_device_conflicts db did sd ed ex e).mp he
    exact ⟨fun h => hstat (Or.inl h), fun h => hstat (Or.inr h)⟩

/-- C7 amended witness: the one row the availability check returns over
day 100 on a room held by a Confirmed booking has an active status. -/
theorem C7_terminal_exclusion_scope_witness :
    (⟨50, "Held", 100, 100, "Confirmed"⟩ : RoomConflict).status = "Room Assigned" ∨
    (⟨50, "Held", 100, 100, "Confirmed"⟩ : RoomConflict).status = "Confirmed" :=
  (C7_terminal_exclusion_scope dbConfirmedRoom1 1 4 100 100 none).1
    ⟨50, "Held", 100, 100, "Confirmed"⟩ (by decide)

/-- C8: conflict detection uses half-open interval intersection: a
range ending exactly where another begins never overlaps it, any
intersection of positive duration does overlap, and both the room and
the device conflict queries report a booking only when its stored
period overlaps the query range under that operator. -/
theorem C8_half_open_correctness :
    (∀ a b c : Int, TRange.overlaps ⟨a, b⟩ ⟨b, c⟩ = false) ∧
    (∀ r1 r2 : TRange, max r1.lo r2.lo < min r1.hi r2.hi →
       r1.overlaps r2 = true) ∧
    (∀ db rid sd ed ex, ∀ e ∈ availability_check_room_conflicts db rid sd ed ex,
       ∃ b, b ∈ db.bookings ∧ b.id = e.booking_id ∧
         b.booking_period.overlaps ⟨availStartDt sd, availEndDt ed⟩ = true) ∧
    (∀ db did sd ed ex, ∀ e ∈ get_device_conflicts db did sd ed ex,
       ∃ b, b ∈ db.bookings ∧ b.id = e.booking_id ∧
         b.booking_period.overlaps ⟨midnightDt sd, midnightDt ed⟩ = true) := by
  refine ⟨?_, ?_, ?_, ?_⟩
  · intro a b c
    simp [TRange.overlaps, TRange.isEmpty]
  · intro r1 r2 h
    simp only [TRange.overlaps, TRange.isEmpty, Bool.and_eq_true,
      Bool.not_eq_true', decide_eq_false_iff_not, decide_eq_true_eq, not_le]
    omega
  · intro db rid sd ed ex e he
    obtain ⟨b, hb, _, _, hov, _, rfl⟩ :=
      (mem_availability_check db rid sd ed ex e).mp he
    exact ⟨b, hb, rfl, hov⟩
  · intro db did sd ed ex e he
    obtain ⟨bda, b, r, _, _, hfind, _, _, _, hov, rfl⟩ :=
      (mem_device_conflicts db did sd ed ex e).mp he
    exact ⟨b, List.mem_of_find?_eq_some hfind, rfl, hov⟩

/-- C8 witness: [09:00, 10:00) against [10:00, 11:00) (minutes 540-600
and 600-660) is no conflict; one minute of intersection is. -/
theorem C8_half_open_correctness_witness :
    TRange.overlaps ⟨540, 600⟩ ⟨600, 660⟩ = false ∧
    TRange.overlaps ⟨540, 600⟩ ⟨599, 660⟩ = true :=
  ⟨C8_half_open_correctness.1 540 600 660,
   C8_half_open_correctness.2.1 ⟨540, 600⟩ ⟨599, 660⟩ (by decide)⟩

/-! ### Reallocation and workflow lemmas -/

/-- Filtering out everything satisfying `p` leaves nothing satisfying
`p`. -/
theorem any_filter_not {α : Type} (l : List α) (p : α → Bool) :
    (l.filter (fun a => !p a)).any p = false := by
  rw [Bool.eq_false_iff]
  intro h
  obtain ⟨x, hx, hpx⟩ := List.any_eq_true.mp h
  have hq := (List.mem_filter.mp hx).2
  simp [hpx] at hq

/-- A timestamp lies inside the approval query window rebuilt from its
own date (00:00 of `lower::date` up to 23:59 of `upper::date`). -/
theorem approval_window_bounds (t : Int) :
    approvalStartDt (toDate t) ≤ t ∧ t ≤ approvalEndDt (toDate t) := by
  unfold approvalStartDt approvalEndDt toDate minutesPerDay
  omega

/-- Overlapping a sub-range implies overlapping any enclosing range. -/
theorem overlaps_mono (x b qr : TRange) (h : x.overlaps b = true)
    (hlo : qr.lo ≤ b.lo) (hhi : b.hi ≤ qr.hi) : x.overlaps qr = true := by
  simp only [TRange.overlaps, TRange.isEmpty, Bool.and_eq_true,
    Bool.not_eq_true', decide_eq_false_iff_not, decide_eq_true_eq, not_le] at h ⊢
  omega

/-- C5 counterexample: device 1 is bound to booking 10; a reallocation
to booking 20 whose target INSERT transaction fails reports failure,
but the already-committed source DELETE stands: afterwards the device
is bound to NEITHER the source nor the target booking — the partial
state the claim rules out is observable. -/
theorem C5_counterexample :
    device_bound_to dbRealloc 1 10 = true ∧
    (reallocate_device dbRealloc ⟨false, true⟩ 1 10 20 "itstaff" none).2.success = false ∧
    device_bound_to (reallocate_device dbRealloc ⟨false, true⟩ 1 10 20 "itstaff" none).1 1 10 = false ∧
    device_bound_to (reallocate_device dbRealloc ⟨false, true⟩ 1 10 20 "itstaff" none).1 1 20 = false :=
  ⟨rfl, rfl, rfl, rfl⟩

/-- C5 amended: the source DELETE and the target INSERT run as two
separate transactions. When both succeed the device ends bound to the
target and not the source; but when the INSERT fails after the DELETE
has committed, the device is bound to the source no longer and to the
target no more than it already was — with a previously unbound target
it ends bound to neither, so partial application is observable. -/
theorem C5_reallocate_two_transactions (db : Database)
    (device_id fb tb : Int) (pb : String) (reason : Option String)
    (dev : Device)
    (hdev : db.devices.find? (fun d => d.id == device_id) = some dev)
    (h1 : device_id ≠ 0) (h2 : fb ≠ 0) (h3 : tb ≠ 0) (h4 : pb ≠ "")
    (h5 : fb ≠ tb) :
    (∀ env : ReallocEnv, env.deleteFails = false → env.insertFails = false →
       (reallocate_device db env device_id fb tb pb reason).2.success = true ∧
       device_bound_to (reallocate_device db env device_id fb tb pb reason).1
         device_id tb = true ∧
       device_bound_to (reallocate_device db env device_id fb tb pb reason).1
         device_id fb = false) ∧
    (∀ env : ReallocEnv, env.deleteFails = false → env.insertFails = true →
       (reallocate_device db env device_id fb tb pb reason).2.success = false ∧
       device_bound_to (reallocate_device db env device_id fb tb pb reason).1
         device_id fb = false ∧
       device_bound_to (reallocate_device db env device_id fb tb pb reason).1
         device_id tb = device_bound_to db device_id tb) := by
  have hg1 : (device_id == 0) = false := beq_eq_false_iff_ne.mpr h1
  have hg2 : (fb == 0) = false := beq_eq_false_iff_ne.mpr h2
  have hg3 : (tb == 0) = false := beq_eq_false_iff_ne.mpr h3
  have hg4 : (pb == "") = false := beq_eq_false_iff_ne.mpr h4
  have hbound : ∀ l : List BookingDeviceAssignment,
      (l.filter (fun a => !(a.device_id == some device_id && a.booking_id == fb))).any
        (fun a => a.device_id == some device_id && a.booking_id == fb) = false :=
    fun l => any_filter_not l _
  constructor
  · intro env hdf hif
    simp only [reallocate_device, hg1, hg2, hg3, hg4, hdf, hif, Bool.false_eq_true,
      if_false, hdev]
    refine ⟨trivial, ?_, ?_⟩
    · simp [device_bound_to, List.any_append]
    · simp only [device_bound_to, List.any_append, hbound, Bool.false_or,
        List.any_cons, List.any_nil, Bool.or_false]
      simp [beq_eq_false_iff_ne, h5, Ne.symm]
  · intro env hdf hif
    simp only [reallocate_device, hg1, hg2, hg3, hg4, hdf, hif, Bool.false_eq_true,
      if_false, if_true, hdev]
    refine ⟨trivial, ?_, ?_⟩
    · exact hbound db.assignments
    · simp only [device_bound_to]
      rw [Bool.eq_iff_iff, List.any_eq_true, List.any_eq_true]
      constructor
      · rintro ⟨x, hx, hpx⟩
        exact ⟨x, (List.mem_filter.mp hx).1, hpx⟩
      · rintro ⟨x, hx, hpx⟩
        refine ⟨x, List.mem_filter.mpr ⟨hx, ?_⟩, hpx⟩
        simp only [Bool.and_eq_true, beq_iff_eq] at hpx
        simp [hpx.1, hpx.2, h5, Ne.symm]


/-- C5 amended witness: a fully successful reallocation of device 1
from booking 10 to booking 20 succeeds and moves the binding. -/
theorem C5_reallocate_two_transactions_witness :
    (reallocate_device dbRealloc ⟨false, false⟩ 1 10 20 "itstaff" none).2.success = true ∧
    device_bound_to (reallocate_device dbRealloc ⟨false, false⟩ 1 10 20 "itstaff" none).1 1 20 = true ∧
    device_bound_to (reallocate_device dbRealloc ⟨false, false⟩ 1 10 20 "itstaff" none).1 1 10 = false :=
  (C5_reallocate_two_transactions dbRealloc 1 10 20 "itstaff" none
    ⟨1, "SN-001", "Laptop 1", 5, "available"⟩ rfl (by decide) (by decide)
    (by decide) (by decide) (by decide)).1 ⟨false, false⟩ rfl rfl

/-- C6: a booking created with no room (room_id NULL, the
ghost-inventory state) succeeds with status `Pending` and the row
records no room; a later `assign_room` on a Pending booking with an
existing room and no conflicts succeeds and transitions the booking to
`Room Assigned` with the chosen room; and `assign_room` rejects any
booking whose current status is not `Pending`, leaving the datastore
unchanged. -/
theorem C6_ghost_inventory :
    (∀ db sd ed cn nl nf dn notes,
       (create_enhanced_booking db none sd ed cn nl nf dn notes "Pending").2.success = true ∧
       ∃ b ∈ (create_enhanced_booking db none sd ed cn nl nf dn notes "Pending").1.bookings,
         b.id = db.next_booking_id ∧ b.status = "Pending" ∧ b.room_id = none) ∧
    (∀ db bid rid notes b,
       db.bookings.find? (fun x => x.id == bid) = some b →
       b.status = "Pending" →
       (db.rooms.find? (fun r => r.id == rid)).isSome = true →
       approval_check_room_conflicts db rid (toDate b.booking_period.lo)
         (toDate b.booking_period.hi) (some bid) = [] →
       (assign_room db bid rid notes false).2.success = true ∧
       ∃ b2 ∈ (assign_room db bid rid notes false).1.bookings,
         b2.id = b.id ∧ b2.status = "Room Assigned" ∧ b2.room_id = some rid) ∧
    (∀ db bid rid notes ov b,
       db.bookings.find? (fun x => x.id == bid) = some b →
       b.status ≠ "Pending" →
       (assign_room db bid rid notes ov).2.success = false ∧
       (assign_room db bid rid notes ov).1 = db) := by
  refine ⟨?_, ?_, ?_⟩
  · intro db sd ed cn nl nf dn notes
    constructor
    · simp [create_enhanced_booking, exclusionViolates, activeStatus]
    · refine ⟨⟨db.next_booking_id, none, ⟨availStartDt sd, availEndDt ed⟩,
        cn, "Pending", nl, nf, dn, notes⟩, ?_, rfl, rfl, rfl⟩
      simp [create_enhanced_booking, exclusionViolates, activeStatus,
        List.mem_append]
  · intro db bid rid notes b hfind hpend hroom hconf
    have hbid : b.id = bid := by simpa using List.find?_some hfind
    have hexcl : exclusionViolates db
        { b with room_id := some rid, status := "Room Assigned",
                 room_boss_notes := notes } = false := by
      rw [Bool.eq_false_iff]
      intro hv
      simp only [exclusionViolates, Bool.and_eq_true] at hv
      obtain ⟨-, hany⟩ := hv
      obtain ⟨x, hx, hpx⟩ := List.any_eq_true.mp hany
      simp only [Bool.and_eq_true, bne_iff_ne, beq_iff_eq] at hpx
      obtain ⟨⟨⟨hxid, hxroom⟩, hxact⟩, hxov⟩ := hpx
      have hov2 : x.booking_period.overlaps
          ⟨approvalStartDt (toDate b.booking_period.lo),
           approvalEndDt (toDate b.booking_period.hi)⟩ = true :=
        overlaps_mono _ b.booking_period _ hxov
          (approval_window_bounds b.booking_period.lo).1
          (approval_window_bounds b.booking_period.hi).2
      have hmem : (⟨x.id, x.client_name, toDate x.booking_period.lo,
          toDate x.booking_period.hi, x.status⟩ : RoomConflict) ∈
          approval_check_room_conflicts db rid (toDate b.booking_period.lo)
            (toDate b.booking_period.hi) (some bid) := by
        refine (mem_approval_check db rid _ _ (some bid) _).mpr
          ⟨x, hx, hxroom, hxact, hov2, ?_, rfl⟩
        have : x.id ≠ bid := hbid ▸ hxid
        simp [excludeFilter, this]
      rw [hconf] at hmem
      simp at hmem
    have hpendbeq : (b.status != "Pending") = false := by simp [hpend]
    obtain ⟨r, hr⟩ := Option.isSome_iff_exists.mp hroom
    constructor
    · simp [assign_room, hfind, hpendbeq, hconf, hexcl, hr]
    · simp only [assign_room, hfind, hpendbeq, Bool.false_eq_true, if_false,
        hconf, List.isEmpty_nil, Bool.not_true, Bool.and_false, hexcl, hr]
      refine ⟨{ b with room_id := some rid, status := "Room Assigned", room_boss_notes := notes }, ?_, rfl, rfl, rfl⟩
      exact List.mem_map.mpr ⟨b, List.mem_of_find?_eq_some hfind,
        by rw [if_pos (by simpa using hbid)]⟩
  · intro db bid rid notes ov b hfind hstat
    have h1 : (b.status != "Pending") = true := bne_iff_ne.mpr hstat
    constructor <;> simp [assign_room, hfind, h1]

/-- C6 witness: a roomless create lands Pending, and assigning free
room 2 to the Pending ghost booking 60 succeeds. -/
theorem C6_ghost_inventory_witness :
    (create_enhanced_booking dbConfirmedRoom1 none 200 200 "Ghost" 3 1 0 none
      "Pending").2.success = true ∧
    (assign_room dbPending 60 2 (some "ok") false).2.success = true :=
  ⟨(C6_ghost_inventory.1 dbConfirmedRoom1 200 200 "Ghost" 3 1 0 none).1,
   (C6_ghost_inventory.2.1 dbPending 60 2 (some "ok")
     ⟨60, none, ⟨300 * 1440 + 450, 300 * 1440 + 990⟩, "Ghost", "Pending",
      3, 1, 0, none⟩ rfl rfl rfl rfl).1⟩

/-- C9 counterexample: with a Confirmed booking holding room 1 over day
100, the conflict query reports a conflict, yet a create supplying room
1 over that same day — by a caller holding no override authority, a
concept absent from `create_enhanced_booking` — succeeds, writes the
booking row, and stores the caller's notes untouched (no conflict is
recorded). The claim that a conflicted create is rejected is false. -/
theorem C9_counterexample :
    availability_check_room_conflicts dbConfirmedRoom1 1 100 100 none ≠ [] ∧
    (create_enhanced_booking dbConfirmedRoom1 (some 1) 100 100 "New" 3 1 0
      (some "prefs") "Pending").2.success = true ∧
    ∃ b ∈ (create_enhanced_booking dbConfirmedRoom1 (some 1) 100 100 "New" 3 1 0
      (some "prefs") "Pending").1.bookings,
      b.id = 51 ∧ b.room_id = some 1 ∧ b.status = "Pending" ∧
      b.room_boss_notes = some "prefs" := by
  refine ⟨by decide, rfl, ?_⟩
  exact ⟨⟨51, some 1, ⟨100 * 1440 + 450, 100 * 1440 + 990⟩, "New", "Pending",
    3, 1, 0, some "prefs"⟩, by decide, rfl, rfl, rfl, rfl⟩

/-- C9 amended: `create_enhanced_booking` runs no room-conflict check
and knows no override authority: a Pending create supplying a room
always succeeds and writes the row with the caller's notes unchanged,
whatever conflicts exist; a create in an active status is rejected only
by the storage-level exclusion constraint (the transaction rolled back,
the datastore unchanged), never by a check in the create path. -/
theorem C9_create_unchecked (db : Database) (rid sd ed : Int) (cn : String)
    (nl nf dn : Int) (notes : Option String) :
    ((create_enhanced_booking db (some rid) sd ed cn nl nf dn notes
        "Pending").2.success = true) ∧
    (∃ b ∈ (create_enhanced_booking db (some rid) sd ed cn nl nf dn notes
        "Pending").1.bookings,
       b.id = db.next_booking_id ∧ b.room_id = some rid ∧ b.status = "Pending" ∧
       b.room_boss_notes = notes) ∧
    (∀ st : String,
       exclusionViolates db ⟨db.next_booking_id, some rid,
         ⟨availStartDt sd, availEndDt ed⟩, cn, st, nl, nf, dn, notes⟩ = false →
       (create_enhanced_booking db (some rid) sd ed cn nl nf dn notes
         st).2.success = true) ∧
    (∀ st : String,
       exclusionViolates db ⟨db.next_booking_id, some rid,
         ⟨availStartDt sd, availEndDt ed⟩, cn, st, nl, nf, dn, notes⟩ = true →
       (create_enhanced_booking db (some rid) sd ed cn nl nf dn notes
         st).2.success = false ∧
       (create_enhanced_booking db (some rid) sd ed cn nl nf dn notes st).1 = db) := by
  have hpend : exclusionViolates db ⟨db.next_booking_id, some rid,
      ⟨availStartDt sd, availEndDt ed⟩, cn, "Pending", nl, nf, dn, notes⟩ = false := by
    simp [exclusionViolates, activeStatus]
  refine ⟨?_, ?_, ?_, ?_⟩
  · simp [create_enhanced_booking, hpend]
  · simp only [create_enhanced_booking, hpend, Bool.false_eq_true, if_false]
    exact ⟨⟨db.next_booking_id, some rid, ⟨availStartDt sd, availEndDt ed⟩,
      cn, "Pending", nl, nf, dn, notes⟩,
      List.mem_append_right _ (List.mem_singleton.mpr rfl), rfl, rfl, rfl, rfl⟩
  · intro st hst
    simp [create_enhanced_booking, hst]
  · intro st hst
    constructor <;> simp [create_enhanced_booking, hst]

/-- C9 amended witness: a Pending create on free room 2 succeeds; a
Confirmed create on the conflicted room 1 is rejected by the storage
constraint with the datastore unchanged. -/
theorem C9_create_unchecked_witness :
    (create_enhanced_booking dbConfirmedRoom1 (some 2) 100 100 "W" 1 1 0 none
      "Pending").2.success = true ∧
    (create_enhanced_booking dbConfirmedRoom1 (some 1) 100 100 "W" 1 1 0 none
      "Confirmed").2.success = false :=
  ⟨(C9_create_unchecked dbConfirmedRoom1 2 100 100 "W" 1 1 0 none).1,
   ((C9_create_unchecked dbConfirmedRoom1 1 100 100 "W" 1 1 0 none).2.2.2
     "Confirmed" (by decide)).1⟩

end ColabErp
